import Mathlib

/-!
Verification of the `ta_manager` session-multiplexing IPC gateway
(`src/ta_manager/src/lib.rs`, `src/ta_manager/src/protocol.rs`).

Bytes are modelled as `Nat` values below 256, byte strings as `List Nat`.
Machine integers (`u32`, `u64`/`usize`) are `Nat` with explicit bounds or
`% 2^w` where the code can wrap.  The bincode `standard()` configuration is
little-endian with variable-length integer encoding; `u8` values are written
through unchanged, collection lengths are written as `u64` varints, and enum
variants are written as the `u32` varint of their declaration index.
-/

namespace Utee

/-- `k` little-endian bytes of `n` (as written by `to_ne_bytes` on a
little-endian host, and by bincode's fixed-width tails). Truncates `n`
modulo `256^k`, as a Rust `as` cast does. -/
def leBytes : Nat → Nat → List Nat
  | 0, _ => []
  | k + 1, n => n % 256 :: leBytes k (n / 256)

/-- Read exactly `k` bytes from the front of a stream, little-endian;
`none` when fewer than `k` bytes remain (a failed `read_exact`). -/
def readLE : Nat → List Nat → Option (Nat × List Nat)
  | 0, l => some (0, l)
  | _ + 1, [] => none
  | k + 1, b :: rest =>
    match readLE k rest with
    | some (n, r) => some (b + 256 * n, r)
    | none => none

theorem leBytes_length (k n : Nat) : (leBytes k n).length = k := by
  induction k generalizing n with
  | zero => rfl
  | succ k ih => simp [leBytes, ih]

theorem readLE_leBytes (k n : Nat) (rest : List Nat) :
    readLE k (leBytes k n ++ rest) = some (n % 256 ^ k, rest) := by
  induction k generalizing n with
  | zero => simp [leBytes, readLE, Nat.mod_one]
  | succ k ih =>
    have h : n % 256 + 256 * (n / 256 % 256 ^ k) = n % 256 ^ (k + 1) := by
      rw [pow_succ, mul_comm (256 ^ k) 256, Nat.mod_mul]
    simp only [leBytes, List.cons_append, readLE, List.append_eq, ih]
    rw [h]

theorem readLE_leBytes_of_lt (k n : Nat) (rest : List Nat) (h : n < 256 ^ k) :
    readLE k (leBytes k n ++ rest) = some (n, rest) := by
  rw [readLE_leBytes, Nat.mod_eq_of_lt h]

/-- bincode varint encoding of an unsigned integer (standard config):
values below 251 are a single byte; otherwise a width marker
(251 = u16, 252 = u32, 253 = u64, 254 = u128) followed by that many
little-endian bytes. -/
def encVarint (n : Nat) : List Nat :=
  if n < 251 then [n]
  else if n < 2 ^ 16 then 251 :: leBytes 2 n
  else if n < 2 ^ 32 then 252 :: leBytes 4 n
  else if n < 2 ^ 64 then 253 :: leBytes 8 n
  else 254 :: leBytes 16 n

/-- bincode varint decoding: reads the marker byte then the tail. -/
def decVarint : List Nat → Option (Nat × List Nat)
  | [] => none
  | b :: rest =>
    if b < 251 then some (b, rest)
    else if b = 251 then readLE 2 rest
    else if b = 252 then readLE 4 rest
    else if b = 253 then readLE 8 rest
    else if b = 254 then readLE 16 rest
    else none

theorem decVarint_encVarint (n : Nat) (rest : List Nat) (h : n < 2 ^ 128) :
    decVarint (encVarint n ++ rest) = some (n, rest) := by
  unfold encVarint
  by_cases h1 : n < 251
  · simp [decVarint, h1]
  · by_cases h2 : n < 2 ^ 16
    · simp only [if_neg h1, if_pos h2, List.cons_append, decVarint]
      norm_num
      exact readLE_leBytes_of_lt 2 n rest (by norm_num at h2 ⊢; omega)
    · by_cases h3 : n < 2 ^ 32
      · simp only [if_neg h1, if_neg h2, if_pos h3, List.cons_append, decVarint]
        norm_num
        exact readLE_leBytes_of_lt 4 n rest (by norm_num at h3 ⊢; omega)
      · by_cases h4 : n < 2 ^ 64
        · simp only [if_neg h1, if_neg h2, if_neg h3, if_pos h4, List.cons_append, decVarint]
          norm_num
          exact readLE_leBytes_of_lt 8 n rest (by norm_num at h4 ⊢; omega)
        · simp only [if_neg h1, if_neg h2, if_neg h3, if_neg h4, List.cons_append, decVarint]
          norm_num
          exact readLE_leBytes_of_lt 16 n rest (by norm_num at h ⊢; omega)

/-- Decode a `u32` field: bincode rejects varint values that overflow the
target width. -/
def decU32 (l : List Nat) : Option (Nat × List Nat) :=
  match decVarint l with
  | some (n, rest) => if n < 2 ^ 32 then some (n, rest) else none
  | none => none

/-- Decode a `u64`/`usize` field (collection lengths). -/
def decU64 (l : List Nat) : Option (Nat × List Nat) :=
  match decVarint l with
  | some (n, rest) => if n < 2 ^ 64 then some (n, rest) else none
  | none => none

theorem decU32_encVarint (n : Nat) (rest : List Nat) (h : n < 2 ^ 32) :
    decU32 (encVarint n ++ rest) = some (n, rest) := by
  rw [decU32, decVarint_encVarint n rest (lt_trans h (by norm_num))]
  show (if n < 2 ^ 32 then some (n, rest) else none) = some (n, rest)
  rw [if_pos h]

theorem decU64_encVarint (n : Nat) (rest : List Nat) (h : n < 2 ^ 64) :
    decU64 (encVarint n ++ rest) = some (n, rest) := by
  rw [decU64, decVarint_encVarint n rest (lt_trans h (by norm_num))]
  show (if n < 2 ^ 64 then some (n, rest) else none) = some (n, rest)
  rw [if_pos h]

/-- bincode encoding of a `Vec<u8>` (also of a `String`'s UTF-8 bytes):
the length as a `u64` varint followed by the raw bytes (`u8` values are
written through unchanged under the standard config). -/
def encBytes (data : List Nat) : List Nat :=
  encVarint data.length ++ data

/-- bincode decoding of a `Vec<u8>` / `String` payload: read the length,
then exactly that many bytes.  (For `String`, bincode additionally checks
the bytes are valid UTF-8; a byte list produced by encoding a string is,
so the check never fails on a round trip and is not modelled.) -/
def decBytes (l : List Nat) : Option (List Nat × List Nat) :=
  match decU64 l with
  | some (n, rest) =>
    if n ≤ rest.length then some (rest.take n, rest.drop n) else none
  | none => none

theorem decBytes_encBytes (data : List Nat) (rest : List Nat)
    (h : data.length < 2 ^ 64) :
    decBytes (encBytes data ++ rest) = some (data, rest) := by
  rw [encBytes, List.append_assoc, decBytes, decU64_encVarint data.length _ h]
  simp [List.take_append, List.drop_append]

/-! ### Protocol data types (`src/ta_manager/src/protocol.rs`) -/

/-- `ParamType` (protocol.rs): the Parameter tag enumeration. The Rust
declaration assigns discriminants `0,1,2,3,5,6,7`; bincode's derive
serialises the declaration *index* (`0..6`), and `From<u32>` uses the
declared discriminant values. -/
inductive ParamType
  | none
  | valueInput
  | valueOutput
  | valueInout
  | memrefInput
  | memrefOutput
  | memrefInout
deriving DecidableEq, Repr

/-- `From<u32> for ParamType` (protocol.rs): maps the declared
discriminant values; every other value falls to the `_ => None` arm. -/
def ParamType.fromU32 (value : Nat) : ParamType :=
  match value with
  | 0 => ParamType.none
  | 1 => ParamType.valueInput
  | 2 => ParamType.valueOutput
  | 3 => ParamType.valueInout
  | 5 => ParamType.memrefInput
  | 6 => ParamType.memrefOutput
  | 7 => ParamType.memrefInout
  | _ => ParamType.none

/-- `Value` (protocol.rs): a pair of `u32` words. -/
structure Value where
  a : Nat
  b : Nat
deriving DecidableEq, Repr

/-- `TEEParam` (protocol.rs): a byte buffer plus a `Value` pair. -/
structure TEEParam where
  data : List Nat
  value : Value
deriving DecidableEq, Repr

/-- `Parameter` (protocol.rs): a `TEEParam` payload and its tag. -/
structure Parameter where
  raw : TEEParam
  param_type : ParamType
deriving DecidableEq, Repr

/-- `Parameters` (protocol.rs): the fixed 4-slot Parameter Block. -/
structure Parameters where
  p0 : Parameter
  p1 : Parameter
  p2 : Parameter
  p3 : Parameter
deriving DecidableEq, Repr

/-- `Parameter::default()` (protocol.rs). -/
def Parameter.default : Parameter :=
  { raw := { data := [], value := { a := 0, b := 0 } },
    param_type := ParamType.none }

/-- `Parameters::default()` (protocol.rs). -/
def Parameters.default : Parameters :=
  { p0 := Parameter.default, p1 := Parameter.default,
    p2 := Parameter.default, p3 := Parameter.default }

/-! Well-formedness of field values: numeric fields fit their Rust width,
buffers hold bytes and have a `usize` length. -/

def bytesWf (l : List Nat) : Prop :=
  l.length < 2 ^ 64 ∧ ∀ b ∈ l, b < 256

def Value.wf (v : Value) : Prop := v.a < 2 ^ 32 ∧ v.b < 2 ^ 32

def TEEParam.wf (t : TEEParam) : Prop := bytesWf t.data ∧ t.value.wf

def Parameter.wf (p : Parameter) : Prop := p.raw.wf

def Parameters.wf (ps : Parameters) : Prop :=
  ps.p0.wf ∧ ps.p1.wf ∧ ps.p2.wf ∧ ps.p3.wf

instance : DecidablePred bytesWf := fun _ =>
  inferInstanceAs (Decidable (_ ∧ _))

instance (v : Value) : Decidable v.wf := inferInstanceAs (Decidable (_ ∧ _))

instance (t : TEEParam) : Decidable t.wf := inferInstanceAs (Decidable (_ ∧ _))

instance (p : Parameter) : Decidable p.wf := inferInstanceAs (Decidable (TEEParam.wf _))

instance (ps : Parameters) : Decidable ps.wf := inferInstanceAs (Decidable (_ ∧ _))

/-! ### bincode encoders and decoders for the protocol types -/

/-- Declaration index of a `ParamType` variant (what bincode's derive
serialises). -/
def ParamType.index : ParamType → Nat
  | .none => 0
  | .valueInput => 1
  | .valueOutput => 2
  | .valueInout => 3
  | .memrefInput => 4
  | .memrefOutput => 5
  | .memrefInout => 6

def encParamType (pt : ParamType) : List Nat :=
  encVarint pt.index

def decParamType (l : List Nat) : Option (ParamType × List Nat) :=
  match decU32 l with
  | some (0, rest) => some (ParamType.none, rest)
  | some (1, rest) => some (ParamType.valueInput, rest)
  | some (2, rest) => some (ParamType.valueOutput, rest)
  | some (3, rest) => some (ParamType.valueInout, rest)
  | some (4, rest) => some (ParamType.memrefInput, rest)
  | some (5, rest) => some (ParamType.memrefOutput, rest)
  | some (6, rest) => some (ParamType.memrefInout, rest)
  | _ => none

theorem decParamType_encParamType (pt : ParamType) (rest : List Nat) :
    decParamType (encParamType pt ++ rest) = some (pt, rest) := by
  cases pt <;>
    simp [encParamType, ParamType.index, decParamType, decU32_encVarint]

def encValue (v : Value) : List Nat :=
  encVarint v.a ++ encVarint v.b

def decValue (l : List Nat) : Option (Value × List Nat) :=
  match decU32 l with
  | some (a, l1) =>
    match decU32 l1 with
    | some (b, l2) => some ({ a := a, b := b }, l2)
    | none => none
  | none => none

theorem decValue_encValue (v : Value) (rest : List Nat) (h : v.wf) :
    decValue (encValue v ++ rest) = some (v, rest) := by
  obtain ⟨ha, hb⟩ := h
  simp [encValue, decValue, List.append_assoc,
    decU32_encVarint _ _ ha, decU32_encVarint _ _ hb]

def encTEEParam (t : TEEParam) : List Nat :=
  encBytes t.data ++ encValue t.value

def decTEEParam (l : List Nat) : Option (TEEParam × List Nat) :=
  match decBytes l with
  | some (data, l1) =>
    match decValue l1 with
    | some (value, l2) => some ({ data := data, value := value }, l2)
    | none => none
  | none => none

theorem decTEEParam_encTEEParam (t : TEEParam) (rest : List Nat) (h : t.wf) :
    decTEEParam (encTEEParam t ++ rest) = some (t, rest) := by
  obtain ⟨⟨hlen, _⟩, hv⟩ := h
  simp [encTEEParam, decTEEParam, List.append_assoc,
    decBytes_encBytes _ _ hlen, decValue_encValue _ _ hv]

def encParameter (p : Parameter) : List Nat :=
  encTEEParam p.raw ++ encParamType p.param_type

def decParameter (l : List Nat) : Option (Parameter × List Nat) :=
  match decTEEParam l with
  | some (raw, l1) =>
    match decParamType l1 with
    | some (pt, l2) => some ({ raw := raw, param_type := pt }, l2)
    | none => none
  | none => none

theorem decParameter_encParameter (p : Parameter) (rest : List Nat)
    (h : p.wf) :
    decParameter (encParameter p ++ rest) = some (p, rest) := by
  simp [encParameter, decParameter, List.append_assoc,
    decTEEParam_encTEEParam _ _ h, decParamType_encParamType]

def encParameters (ps : Parameters) : List Nat :=
  encParameter ps.p0 ++ encParameter ps.p1 ++ encParameter ps.p2 ++
    encParameter ps.p3

def decParameters (l : List Nat) : Option (Parameters × List Nat) :=
  match decParameter l with
  | some (p0, l1) =>
    match decParameter l1 with
    | some (p1, l2) =>
      match decParameter l2 with
      | some (p2, l3) =>
        match decParameter l3 with
        | some (p3, l4) => some ({ p0 := p0, p1 := p1, p2 := p2, p3 := p3 }, l4)
        | none => none
      | none => none
    | none => none
  | none => none

theorem decParameters_encParameters (ps : Parameters) (rest : List Nat)
    (h : ps.wf) :
    decParameters (encParameters ps ++ rest) = some (ps, rest) := by
  obtain ⟨h0, h1, h2, h3⟩ := h
  simp [encParameters, decParameters, List.append_assoc,
    decParameter_encParameter _ _ h0, decParameter_encParameter _ _ h1,
    decParameter_encParameter _ _ h2, decParameter_encParameter _ _ h3]

/-! ### Message types

`TARequest`, `CARequest` and `CAResponse` are declared in
`src/ta_manager/src/protocol.rs`.  The dispatcher in
`src/ta_manager/src/lib.rs` instead decodes `TeeRequest` and encodes
`TeeResponse`; those two enums are not declared under the sources, so
their variants and fields are modelled from the spec (§3's request union
and the result-bearing responses), which coincide exactly with the
exhaustive `match` and the construction sites in `lib.rs`.  A Rust
`String` is modelled as its list of UTF-8 bytes. -/

/-- `TARequest` (protocol.rs): the one-shot registration message. -/
inductive TARequest
  | register (uuid : List Nat)
deriving DecidableEq, Repr

/-- `CARequest` (protocol.rs). -/
inductive CARequest
  | openSession (params : Parameters)
  | closeSession (session_id : Nat)
  | destroy
  | invokeCommand (session_id : Nat) (cmd_id : Nat) (params : Parameters)
deriving DecidableEq, Repr

/-- `CAResponse` (protocol.rs). -/
inductive CAResponse
  | openSession (status : Nat) (session_id : Nat)
  | closeSession (status : Nat) (session_id : Nat)
  | destroy (status : Nat)
  | invokeCommand (status : Nat) (session_id : Nat) (cmd_id : Nat)
      (params : Parameters)
deriving DecidableEq, Repr

/-- Modelled from the spec: `TeeRequest`, the request union the dispatcher
decodes (its declaration is not under the sources; §3 gives
`OpenSession{uuid, connection_method, params}`, `CloseSession{session_id}`,
`InvokeCommand{session_id, cmd_id, params}`,
`RequestCancellation{session_id}`, matching the exhaustive match in
`handle_ca_request`). -/
inductive TeeRequest
  | openSession (uuid : List Nat) (connection_method : Nat)
      (params : Parameters)
  | closeSession (session_id : Nat)
  | invokeCommand (session_id : Nat) (cmd_id : Nat) (params : Parameters)
  | requestCancellation (session_id : Nat)
deriving DecidableEq, Repr

/-- Modelled from the spec: `TeeResponse`, the result-bearing responses the
dispatcher encodes (declaration not under the sources; variants and fields
are those constructed in `lib.rs`). -/
inductive TeeResponse
  | openSession (session_id : Nat) (result : Nat)
  | closeSession (result : Nat)
  | invokeCommand (params : Parameters) (result : Nat)
deriving DecidableEq, Repr

def TARequest.wf : TARequest → Prop
  | .register uuid => bytesWf uuid

def CARequest.wf : CARequest → Prop
  | .openSession params => params.wf
  | .closeSession session_id => session_id < 2 ^ 32
  | .destroy => True
  | .invokeCommand session_id cmd_id params =>
    session_id < 2 ^ 32 ∧ cmd_id < 2 ^ 32 ∧ params.wf

def CAResponse.wf : CAResponse → Prop
  | .openSession status session_id => status < 2 ^ 32 ∧ session_id < 2 ^ 32
  | .closeSession status session_id => status < 2 ^ 32 ∧ session_id < 2 ^ 32
  | .destroy status => status < 2 ^ 32
  | .invokeCommand status session_id cmd_id params =>
    status < 2 ^ 32 ∧ session_id < 2 ^ 32 ∧ cmd_id < 2 ^ 32 ∧ params.wf

def TeeRequest.wf : TeeRequest → Prop
  | .openSession uuid connection_method params =>
    bytesWf uuid ∧ connection_method < 2 ^ 32 ∧ params.wf
  | .closeSession session_id => session_id < 2 ^ 32
  | .invokeCommand session_id cmd_id params =>
    session_id < 2 ^ 32 ∧ cmd_id < 2 ^ 32 ∧ params.wf
  | .requestCancellation session_id => session_id < 2 ^ 32

def TeeResponse.wf : TeeResponse → Prop
  | .openSession session_id result => session_id < 2 ^ 32 ∧ result < 2 ^ 32
  | .closeSession result => result < 2 ^ 32
  | .invokeCommand params result => params.wf ∧ result < 2 ^ 32

instance (m : TARequest) : Decidable m.wf :=
  match m with
  | .register _ => inferInstanceAs (Decidable (bytesWf _))

instance (m : CARequest) : Decidable m.wf :=
  match m with
  | .openSession _ => inferInstanceAs (Decidable (Parameters.wf _))
  | .closeSession _ => inferInstanceAs (Decidable (_ < _))
  | .destroy => inferInstanceAs (Decidable True)
  | .invokeCommand _ _ _ => inferInstanceAs (Decidable (_ ∧ _ ∧ _))

instance (m : CAResponse) : Decidable m.wf :=
  match m with
  | .openSession _ _ => inferInstanceAs (Decidable (_ ∧ _))
  | .closeSession _ _ => inferInstanceAs (Decidable (_ ∧ _))
  | .destroy _ => inferInstanceAs (Decidable (_ < _))
  | .invokeCommand _ _ _ _ => inferInstanceAs (Decidable (_ ∧ _ ∧ _ ∧ _))

instance (m : TeeRequest) : Decidable m.wf :=
  match m with
  | .openSession _ _ _ => inferInstanceAs (Decidable (_ ∧ _ ∧ _))
  | .closeSession _ => inferInstanceAs (Decidable (_ < _))
  | .invokeCommand _ _ _ => inferInstanceAs (Decidable (_ ∧ _ ∧ _))
  | .requestCancellation _ => inferInstanceAs (Decidable (_ < _))

instance (m : TeeResponse) : Decidable m.wf :=
  match m with
  | .openSession _ _ => inferInstanceAs (Decidable (_ ∧ _))
  | .closeSession _ => inferInstanceAs (Decidable (_ < _))
  | .invokeCommand _ _ => inferInstanceAs (Decidable (_ ∧ _))

def encTARequest : TARequest → List Nat
  | .register uuid => encVarint 0 ++ encBytes uuid

def decTARequest (l : List Nat) : Option (TARequest × List Nat) :=
  match decU32 l with
  | some (0, l1) =>
    match decBytes l1 with
    | some (uuid, l2) => some (.register uuid, l2)
    | none => none
  | _ => none

def encCARequest : CARequest → List Nat
  | .openSession params => encVarint 0 ++ encParameters params
  | .closeSession session_id => encVarint 1 ++ encVarint session_id
  | .destroy => encVarint 2
  | .invokeCommand session_id cmd_id params =>
    encVarint 3 ++ encVarint session_id ++ encVarint cmd_id ++
      encParameters params

def decCARequest (l : List Nat) : Option (CARequest × List Nat) :=
  match decU32 l with
  | some (0, l1) =>
    match decParameters l1 with
    | some (params, l2) => some (.openSession params, l2)
    | none => none
  | some (1, l1) =>
    match decU32 l1 with
    | some (session_id, l2) => some (.closeSession session_id, l2)
    | none => none
  | some (2, l1) => some (.destroy, l1)
  | some (3, l1) =>
    match decU32 l1 with
    | some (session_id, l2) =>
      match decU32 l2 with
      | some (cmd_id, l3) =>
        match decParameters l3 with
        | some (params, l4) =>
          some (.invokeCommand session_id cmd_id params, l4)
        | none => none
      | none => none
    | none => none
  | _ => none

def encCAResponse : CAResponse → List Nat
  | .openSession status session_id =>
    encVarint 0 ++ encVarint status ++ encVarint session_id
  | .closeSession status session_id =>
    encVarint 1 ++ encVarint status ++ encVarint session_id
  | .destroy status => encVarint 2 ++ encVarint status
  | .invokeCommand status session_id cmd_id params =>
    encVarint 3 ++ encVarint status ++ encVarint session_id ++
      encVarint cmd_id ++ encParameters params

def decCAResponse (l : List Nat) : Option (CAResponse × List Nat) :=
  match decU32 l with
  | some (0, l1) =>
    match decU32 l1 with
    | some (status, l2) =>
      match decU32 l2 with
      | some (session_id, l3) => some (.openSession status session_id, l3)
      | none => none
    | none => none
  | some (1, l1) =>
    match decU32 l1 with
    | some (status, l2) =>
      match decU32 l2 with
      | some (session_id, l3) => some (.closeSession status session_id, l3)
      | none => none
    | none => none
  | some (2, l1) =>
    match decU32 l1 with
    | some (status, l2) => some (.destroy status, l2)
    | none => none
  | some (3, l1) =>
    match decU32 l1 with
    | some (status, l2) =>
      match decU32 l2 with
      | some (session_id, l3) =>
        match decU32 l3 with
        | some (cmd_id, l4) =>
          match decParameters l4 with
          | some (params, l5) =>
            some (.invokeCommand status session_id cmd_id params, l5)
          | none => none
        | none => none
      | none => none
    | none => none
  | _ => none

def encTeeRequest : TeeRequest → List Nat
  | .openSession uuid connection_method params =>
    encVarint 0 ++ encBytes uuid ++ encVarint connection_method ++
      encParameters params
  | .closeSession session_id => encVarint 1 ++ encVarint session_id
  | .invokeCommand session_id cmd_id params =>
    encVarint 2 ++ encVarint session_id ++ encVarint cmd_id ++
      encParameters params
  | .requestCancellation session_id => encVarint 3 ++ encVarint session_id

def decTeeRequest (l : List Nat) : Option (TeeRequest × List Nat) :=
  match decU32 l with
  | some (0, l1) =>
    match decBytes l1 with
    | some (uuid, l2) =>
      match decU32 l2 with
      | some (connection_method, l3) =>
        match decParameters l3 with
        | some (params, l4) =>
          some (.openSession uuid connection_method params, l4)
        | none => none
      | none => none
    | none => none
  | some (1, l1) =>
    match decU32 l1 with
    | some (session_id, l2) => some (.closeSession session_id, l2)
    | none => none
  | some (2, l1) =>
    match decU32 l1 with
    | some (session_id, l2) =>
      match decU32 l2 with
      | some (cmd_id, l3) =>
        match decParameters l3 with
        | some (params, l4) =>
          some (.invokeCommand session_id cmd_id params, l4)
        | none => none
      | none => none
    | none => none
  | some (3, l1) =>
    match decU32 l1 with
    | some (session_id, l2) => some (.requestCancellation session_id, l2)
    | none => none
  | _ => none

def encTeeResponse : TeeResponse → List Nat
  | .openSession session_id result =>
    encVarint 0 ++ encVarint session_id ++ encVarint result
  | .closeSession result => encVarint 1 ++ encVarint result
  | .invokeCommand params result =>
    encVarint 2 ++ encParameters params ++ encVarint result

def decTeeResponse (l : List Nat) : Option (TeeResponse × List Nat) :=
  match decU32 l with
  | some (0, l1) =>
    match decU32 l1 with
    | some (session_id, l2) =>
      match decU32 l2 with
      | some (result, l3) => some (.openSession session_id result, l3)
      | none => none
    | none => none
  | some (1, l1) =>
    match decU32 l1 with
    | some (result, l2) => some (.closeSession result, l2)
    | none => none
  | some (2, l1) =>
    match decParameters l1 with
    | some (params, l2) =>
      match decU32 l2 with
      | some (result, l3) => some (.invokeCommand params result, l3)
      | none => none
    | none => none
  | _ => none

/-! ### Encode-then-decode round trips for the message types -/

theorem decTARequest_encTARequest (m : TARequest) (rest : List Nat)
    (h : m.wf) :
    decTARequest (encTARequest m ++ rest) = some (m, rest) := by
  obtain ⟨uuid⟩ := m
  obtain ⟨hlen, -⟩ := h
  simp [encTARequest, decTARequest, List.append_assoc, decU32_encVarint,
    decBytes_encBytes _ _ hlen]

theorem decCARequest_encCARequest (m : CARequest) (rest : List Nat)
    (h : m.wf) :
    decCARequest (encCARequest m ++ rest) = some (m, rest) := by
  cases m with
  | openSession params =>
    simp [encCARequest, decCARequest, List.append_assoc, decU32_encVarint,
      decParameters_encParameters _ _ h]
  | closeSession session_id =>
    simp [encCARequest, decCARequest, List.append_assoc, decU32_encVarint,
      CARequest.wf] at h ⊢
    simp [decU32_encVarint _ _ h]
  | destroy =>
    simp [encCARequest, decCARequest, decU32_encVarint]
  | invokeCommand session_id cmd_id params =>
    obtain ⟨hs, hc, hp⟩ := h
    simp [encCARequest, decCARequest, List.append_assoc, decU32_encVarint,
      decU32_encVarint _ _ hs, decU32_encVarint _ _ hc,
      decParameters_encParameters _ _ hp]

theorem decCAResponse_encCAResponse (m : CAResponse) (rest : List Nat)
    (h : m.wf) :
    decCAResponse (encCAResponse m ++ rest) = some (m, rest) := by
  cases m with
  | openSession status session_id =>
    obtain ⟨h1, h2⟩ := h
    simp [encCAResponse, decCAResponse, List.append_assoc, decU32_encVarint,
      decU32_encVarint _ _ h1, decU32_encVarint _ _ h2]
  | closeSession status session_id =>
    obtain ⟨h1, h2⟩ := h
    simp [encCAResponse, decCAResponse, List.append_assoc, decU32_encVarint,
      decU32_encVarint _ _ h1, decU32_encVarint _ _ h2]
  | destroy status =>
    simp [encCAResponse, decCAResponse, List.append_assoc, decU32_encVarint,
      CAResponse.wf] at h ⊢
    simp [decU32_encVarint _ _ h]
  | invokeCommand status session_id cmd_id params =>
    obtain ⟨h1, h2, h3, hp⟩ := h
    simp [encCAResponse, decCAResponse, List.append_assoc, decU32_encVarint,
      decU32_encVarint _ _ h1, decU32_encVarint _ _ h2,
      decU32_encVarint _ _ h3, decParameters_encParameters _ _ hp]

theorem decTeeRequest_encTeeRequest (m : TeeRequest) (rest : List Nat)
    (h : m.wf) :
    decTeeRequest (encTeeRequest m ++ rest) = some (m, rest) := by
  cases m with
  | openSession uuid connection_method params =>
    obtain ⟨⟨hlen, -⟩, hc, hp⟩ := h
    simp [encTeeRequest, decTeeRequest, List.append_assoc, decU32_encVarint,
      decBytes_encBytes _ _ hlen, decU32_encVarint _ _ hc,
      decParameters_encParameters _ _ hp]
  | closeSession session_id =>
    simp [encTeeRequest, decTeeRequest, List.append_assoc, decU32_encVarint,
      TeeRequest.wf] at h ⊢
    simp [decU32_encVarint _ _ h]
  | invokeCommand session_id cmd_id params =>
    obtain ⟨hs, hc, hp⟩ := h
    simp [encTeeRequest, decTeeRequest, List.append_assoc, decU32_encVarint,
      decU32_encVarint _ _ hs, decU32_encVarint _ _ hc,
      decParameters_encParameters _ _ hp]
  | requestCancellation session_id =>
    simp [encTeeRequest, decTeeRequest, List.append_assoc, decU32_encVarint,
      TeeRequest.wf] at h ⊢
    simp [decU32_encVarint _ _ h]

theorem decTeeResponse_encTeeResponse (m : TeeResponse) (rest : List Nat)
    (h : m.wf) :
    decTeeResponse (encTeeResponse m ++ rest) = some (m, rest) := by
  cases m with
  | openSession session_id result =>
    obtain ⟨h1, h2⟩ := h
    simp [encTeeResponse, decTeeResponse, List.append_assoc, decU32_encVarint,
      decU32_encVarint _ _ h1, decU32_encVarint _ _ h2]
  | closeSession result =>
    simp [encTeeResponse, decTeeResponse, List.append_assoc, decU32_encVarint,
      TeeResponse.wf] at h ⊢
    simp [decU32_encVarint _ _ h]
  | invokeCommand params result =>
    obtain ⟨hp, h1⟩ := h
    simp [encTeeResponse, decTeeResponse, List.append_assoc, decU32_encVarint,
      decParameters_encParameters _ _ hp, decU32_encVarint _ _ h1]

/-! ### The TA manager state machine (`src/ta_manager/src/lib.rs`)

The dispatcher handles one CA connection at a time and blocks on each
session worker's reply channel, so every request is a synchronous step on
the manager's state.  A worker thread is represented by the registry value
it is reachable through: `Worker.alive ctx` while its loop runs,
`Worker.dead` once it has processed a `Close` (it `break`s, dropping its
receiver, so any later send on the registered sender fails).  The `&mut`
parameters of the trait are modelled by returning the new values. -/

/-- Modelled from the spec: `ErrorKind::ItemNotFound as u32`.  `ErrorKind`
is re-exported by the library root but its module is not under the
sources; the spec (§6) says "item not found" has a stable well-known
numeric value, the TEE standard code `TEE_ERROR_ITEM_NOT_FOUND`. -/
def itemNotFoundCode : Nat := 0xFFFF0008

/-- The `TrustedApplication` trait (lib.rs): `create`/`destroy` plus the
session operations.  `Result<T>` is `Except Nat T` carrying
`Error::raw_code()`; operations taking `&mut` arguments also return their
updated values. -/
structure TrustedApplication (C : Type) where
  create : Except Nat Unit
  open_session : Parameters → Parameters × Except Nat C
  close_session : C → Except Nat Unit
  destroy : Except Nat Unit
  invoke_command : Nat → Parameters → C → Parameters × C × Except Nat Unit

/-- `Result` to numeric status as the handlers build it: `Ok(_)` is `0`,
`Err(e)` is `e.raw_code()`. -/
def resultCode : Except Nat Unit → Nat
  | .ok _ => 0
  | .error e => e

/-- State of the thread behind a registered `Sender<SessionMessage>`. -/
inductive Worker (C : Type)
  | alive (ctx : C)
  | dead
deriving DecidableEq, Repr

/-- The `sessions: HashMap<u32, Sender<SessionMessage>>` registry, as an
association list with at most one binding per key. -/
def insertSession {C : Type} (m : List (Nat × Worker C)) (k : Nat)
    (v : Worker C) : List (Nat × Worker C) :=
  (k, v) :: m.filter (fun p => p.1 != k)

def lookupSession {C : Type} (m : List (Nat × Worker C)) (k : Nat) :
    Option (Worker C) :=
  match m.find? (fun p => p.1 == k) with
  | some p => some p.2
  | none => none

def containsSession {C : Type} (m : List (Nat × Worker C)) (k : Nat) :
    Bool :=
  (lookupSession m k).isSome

/-- The mutable fields of `TAManager`: the session registry and the
`AtomicU32` session-id counter. -/
structure ManagerState (C : Type) where
  sessions : List (Nat × Worker C)
  session_id : Nat
deriving DecidableEq, Repr

/-- `TAManager::new` (lib.rs): empty registry, counter initialised to 1. -/
def ManagerState.fresh {C : Type} : ManagerState C :=
  { sessions := [], session_id := 1 }

/-- How one request handler finishes: a framed reply written back, an
error propagated by `?` out of `handle_ca_request` (terminating the accept
loop), or a panic (`todo!`). -/
inductive Outcome
  | reply (r : TeeResponse)
  | abort
  | panicked
deriving DecidableEq, Repr

/-- Which `TrustedApplication` operations a handler invoked. -/
inductive TACall
  | create
  | openSession
  | closeSession
  | invokeCommand
  | destroy
deriving DecidableEq, Repr

structure StepResult (C : Type) where
  state : ManagerState C
  outcome : Outcome
  calls : List TACall
deriving DecidableEq, Repr

/-- `TAManager::handle_open_session` (lib.rs:127-165).
`next_session_id` is called first (`fetch_add(1)` returns the old counter
and stores the wrapped successor); on `Ok` the worker is spawned and its
sender registered; on `Err` the reply carries `e.raw_code()` and the
allocated `session_id`, and nothing is registered. -/
def handle_open_session {C : Type} (ta : TrustedApplication C)
    (st : ManagerState C) (params : Parameters) : StepResult C :=
  let session_id := st.session_id
  let st1 : ManagerState C :=
    { st with session_id := (st.session_id + 1) % 2 ^ 32 }
  match ta.open_session params with
  | (_, .ok ctx) =>
    { state :=
        { st1 with
          sessions := insertSession st1.sessions session_id (.alive ctx) },
      outcome := .reply (.openSession session_id 0),
      calls := [.openSession] }
  | (_, .error e) =>
    { state := st1,
      outcome := .reply (.openSession session_id e),
      calls := [.openSession] }

/-- `TAManager::handle_close_session` (lib.rs:167-195) together with the
worker's `Close` arm (lib.rs:273-282).  A hit on a live worker sends
`Close`, blocks for the status, and leaves the registry entry in place
(the map is never `remove`d); the worker then exits, so the entry now
points at a disconnected channel.  A hit on such a dead entry makes
`tx.send(..)?` (or the subsequent `recv()?`) fail, aborting the accept
loop.  A miss replies with the item-not-found status. -/
def handle_close_session {C : Type} (ta : TrustedApplication C)
    (st : ManagerState C) (session_id : Nat) : StepResult C :=
  match lookupSession st.sessions session_id with
  | some (.alive ctx) =>
    { state :=
        { st with sessions := insertSession st.sessions session_id .dead },
      outcome := .reply (.closeSession (resultCode (ta.close_session ctx))),
      calls := [.closeSession] }
  | some .dead =>
    { state := st, outcome := .abort, calls := [] }
  | none =>
    { state := st,
      outcome := .reply (.closeSession itemNotFoundCode),
      calls := [] }

/-- `TAManager::handle_invoke_command` (lib.rs:197-232) together with the
worker's `Invoke` arm (lib.rs:259-272).  A hit on a live worker relays
`Invoke{cmd_id, params}` and returns the worker's response (the possibly
mutated parameters and the status); the worker keeps running with its
updated context.  A miss echoes the input parameters with the
item-not-found status. -/
def handle_invoke_command {C : Type} (ta : TrustedApplication C)
    (st : ManagerState C) (session_id cmd_id : Nat)
    (params : Parameters) : StepResult C :=
  match lookupSession st.sessions session_id with
  | some (.alive ctx) =>
    match ta.invoke_command cmd_id params ctx with
    | (params2, ctx2, res) =>
      { state :=
          { st with
            sessions := insertSession st.sessions session_id (.alive ctx2) },
        outcome := .reply (.invokeCommand params2 (resultCode res)),
        calls := [.invokeCommand] }
  | some .dead =>
    { state := st, outcome := .abort, calls := [] }
  | none =>
    { state := st,
      outcome := .reply (.invokeCommand params itemNotFoundCode),
      calls := [] }

/-- The dispatch `match` of `TAManager::handle_ca_request` (lib.rs:106-121)
on an already decoded request.  `RequestCancellation` is `todo!()`. -/
def handleRequest {C : Type} (ta : TrustedApplication C)
    (st : ManagerState C) : TeeRequest → StepResult C
  | .openSession _ _ params => handle_open_session ta st params
  | .closeSession session_id => handle_close_session ta st session_id
  | .invokeCommand session_id cmd_id params =>
    handle_invoke_command ta st session_id cmd_id params
  | .requestCancellation _ =>
    { state := st, outcome := .panicked, calls := [] }

/-- One connection of the accept loop after the framed read: decode the
payload (`decode_from_slice` ignores trailing bytes) and dispatch; a
decode failure is propagated by `?`, terminating the loop. -/
def handleMessage {C : Type} (ta : TrustedApplication C)
    (st : ManagerState C) (payload : List Nat) : StepResult C :=
  match decTeeRequest payload with
  | some (req, _) => handleRequest ta st req
  | none => { state := st, outcome := .abort, calls := [] }

/-! ### Length-prefixed framing (lib.rs:99-103 reads, lib.rs:158-162,
188-192, 225-229 writes) -/

/-- The sender side: `(payload.len() as u32).to_ne_bytes()` followed by the
payload (the `as u32` cast truncates the length modulo `2^32`). -/
def frameMessage (payload : List Nat) : List Nat :=
  leBytes 4 payload.length ++ payload

/-- The receiver side: `read_exact` of 4 length bytes, then `read_exact`
of that many payload bytes; `none` models a failed `read_exact`. -/
def readFramed (stream : List Nat) : Option (List Nat × List Nat) :=
  match readLE 4 stream with
  | some (len, rest) =>
    if len ≤ rest.length then some (rest.take len, rest.drop len) else none
  | none => none

/-! ### Concrete service instances used to exercise the handlers -/

/-- A trusted application whose every operation succeeds (context `Unit`). -/
def taOk : TrustedApplication Unit :=
  { create := .ok ()
    open_session := fun p => (p, .ok ())
    close_session := fun _ => .ok ()
    destroy := .ok ()
    invoke_command := fun _ p c => (p, c, .ok ()) }

/-- A trusted application whose `open_session` fails with raw code `7`. -/
def taFailOpen : TrustedApplication Unit :=
  { create := .ok ()
    open_session := fun p => (p, .error 7)
    close_session := fun _ => .ok ()
    destroy := .ok ()
    invoke_command := fun _ p c => (p, c, .ok ()) }

/-! ### Helper lemmas about the open-session handler -/

/-- The session id a reply to `OpenSession` carries. -/
def assignedId : Outcome → Option Nat
  | .reply (.openSession session_id _) => some session_id
  | _ => none

theorem handle_open_session_counter {C : Type}
    (ta : TrustedApplication C) (st : ManagerState C)
    (params : Parameters) :
    (handle_open_session ta st params).state.session_id =
      (st.session_id + 1) % 2 ^ 32 := by
  rcases h : ta.open_session params with ⟨p2, res⟩
  cases res <;> simp [handle_open_session, h]

theorem handle_open_session_assigned {C : Type}
    (ta : TrustedApplication C) (st : ManagerState C)
    (params : Parameters) :
    assignedId (handle_open_session ta st params).outcome =
      some st.session_id := by
  rcases h : ta.open_session params with ⟨p2, res⟩
  cases res <;> simp [handle_open_session, h, assignedId]

/-- The session ids handed out by `n` consecutive `OpenSession` requests,
read off the replies. -/
def openIds {C : Type} (ta : TrustedApplication C)
    (st : ManagerState C) (params : Parameters) : Nat → List Nat
  | 0 => []
  | n + 1 =>
    ((assignedId (handle_open_session ta st params).outcome).getD 0) ::
      openIds ta (handle_open_session ta st params).state params n

theorem openIds_range {C : Type} (ta : TrustedApplication C)
    (params : Parameters) :
    ∀ (n : Nat) (st : ManagerState C), st.session_id + n ≤ 2 ^ 32 →
      openIds ta st params n = List.range' st.session_id n := by
  intro n
  induction n with
  | zero => intro st _; simp [openIds]
  | succ n ih =>
    intro st hle
    rw [openIds, handle_open_session_assigned, List.range'_succ,
      Option.getD_some]
    cases n with
    | zero => simp [openIds, List.range']
    | succ m =>
      have hlt : st.session_id + 1 < 2 ^ 32 := by omega
      have hc := handle_open_session_counter ta st params
      rw [Nat.mod_eq_of_lt hlt] at hc
      have hle2 : (handle_open_session ta st params).state.session_id +
          (m + 1) ≤ 2 ^ 32 := by omega
      rw [ih _ hle2, hc]

/-- The dispatch `match` never invokes `destroy`: no arm of
`handle_ca_request` calls it. -/
theorem handleRequest_no_destroy {C : Type} (ta : TrustedApplication C)
    (st : ManagerState C) (req : TeeRequest) :
    TACall.destroy ∉ (handleRequest ta st req).calls := by
  cases req with
  | openSession u c p =>
    rcases h : ta.open_session p with ⟨p2, res⟩
    cases res <;> simp [handleRequest, handle_open_session, h]
  | closeSession session_id =>
    rcases h : lookupSession st.sessions session_id with _ | w
    · simp [handleRequest, handle_close_session, h]
    · cases w <;> simp [handleRequest, handle_close_session, h]
  | invokeCommand session_id cmd_id p =>
    rcases h : lookupSession st.sessions session_id with _ | w
    · simp [handleRequest, handle_invoke_command, h]
    · cases w with
      | alive ctx =>
        rcases h2 : ta.invoke_command cmd_id p ctx with ⟨p2, c2, res⟩
        simp [handleRequest, handle_invoke_command, h, h2]
      | dead => simp [handleRequest, handle_invoke_command, h]
  | requestCancellation session_id => simp [handleRequest]

/-! ### The claims -/

/-- C1: the spec says `handle_close_session` on a registered id sends
`Close`, blocks for the worker's status, removes the session's registry
entry and replies — and that afterwards the registry no longer contains
the id.  The code never removes the entry: after opening session 1 and
closing it (reply status 0, the worker's `close_session` result), the
registry still contains key 1 (now bound to a disconnected worker
channel). -/
theorem C1_close_session_keeps_registry_entry :
    (handle_close_session taOk
      (handle_open_session taOk ManagerState.fresh Parameters.default).state
      1).outcome = Outcome.reply (TeeResponse.closeSession 0) ∧
    containsSession
      (handle_close_session taOk
        (handle_open_session taOk ManagerState.fresh
          Parameters.default).state 1).state.sessions 1 = true := by
  decide

/-- C2 counterexample: on a failed `open_session` the reply does not carry
`session_id = 0`; with a fresh manager it carries the freshly allocated
id 1 (and the service's raw code 7). -/
theorem C2_counterexample :
    (handle_open_session taFailOpen ManagerState.fresh
      Parameters.default).outcome =
      Outcome.reply (TeeResponse.openSession 1 7) ∧ (1 : Nat) ≠ 0 := by
  decide

/-- C2 amended: on a failed `open_session` the reply carries the numeric
status code produced by the service logic together with the freshly
allocated session id (`next_session_id` runs before the call, so the
counter is still advanced), and no entry is inserted into the registry. -/
theorem C2_amended_open_session_failure {C : Type}
    (ta : TrustedApplication C) (st : ManagerState C)
    (params p2 : Parameters) (e : Nat)
    (h : ta.open_session params = (p2, Except.error e)) :
    (handle_open_session ta st params).outcome =
      Outcome.reply (TeeResponse.openSession st.session_id e) ∧
    (handle_open_session ta st params).state.sessions = st.sessions ∧
    (handle_open_session ta st params).state.session_id =
      (st.session_id + 1) % 2 ^ 32 := by
  simp [handle_open_session, h]

theorem C2_amended_witness :
    taFailOpen.open_session Parameters.default =
      (Parameters.default, Except.error 7) ∧
    (handle_open_session taFailOpen ManagerState.fresh
      Parameters.default).outcome =
      Outcome.reply (TeeResponse.openSession 1 7) ∧
    (handle_open_session taFailOpen ManagerState.fresh
      Parameters.default).state.sessions = [] :=
  ⟨rfl,
    (C2_amended_open_session_failure taFailOpen ManagerState.fresh
      Parameters.default Parameters.default 7 rfl).1,
    (C2_amended_open_session_failure taFailOpen ManagerState.fresh
      Parameters.default Parameters.default 7 rfl).2.1⟩

/-- C3 counterexample: the dispatcher, given the encoded
`CARequest::Destroy` message, does not invoke the service's `destroy`: the
byte `[2]` decodes as the `TeeRequest` `InvokeCommand` index and then
fails, so the connection handler aborts with no `TrustedApplication` call
at all. -/
theorem C3_counterexample :
    handleMessage taOk (ManagerState.fresh (C := Unit))
      (encCARequest CARequest.destroy) =
      { state := ManagerState.fresh, outcome := Outcome.abort,
        calls := [] } ∧
    TACall.destroy ∉
      (handleMessage taOk (ManagerState.fresh (C := Unit))
        (encCARequest CARequest.destroy)).calls := by
  decide

/-- C3 amended: the request union the dispatcher decodes has no `Destroy`
variant, so no received message ever makes the dispatcher invoke the
Service Instance's `destroy`; the protocol module's `CARequest::Destroy`
encoding does not even decode as a dispatcher request. -/
theorem C3_amended_no_destroy_dispatch {C : Type}
    (ta : TrustedApplication C) (st : ManagerState C)
    (payload : List Nat) :
    TACall.destroy ∉ (handleMessage ta st payload).calls ∧
    decTeeRequest (encCARequest CARequest.destroy) = none := by
  constructor
  · rcases h : decTeeRequest payload with _ | rr
    · simp [handleMessage, h]
    · simpa [handleMessage, h] using handleRequest_no_destroy ta st rr.1
  · decide

/-- C4: closing a session id that was never opened replies with the
item-not-found status and leaves the registry untouched (so repeating the
request gives the same reply).  But for an id that was opened and already
closed the claim fails: the stale registry entry makes the handler's
channel send fail, aborting the dispatcher loop instead of replying
"not found". -/
theorem C4_close_unknown_and_repeat :
    handle_close_session taOk (ManagerState.fresh (C := Unit)) 5 =
      { state := ManagerState.fresh,
        outcome := Outcome.reply (TeeResponse.closeSession itemNotFoundCode),
        calls := [] } ∧
    (handle_close_session taOk
      (handle_close_session taOk
        (handle_open_session taOk ManagerState.fresh
          Parameters.default).state 1).state 1).outcome = Outcome.abort := by
  decide

/-- C5: `handle_invoke_command` on a session id absent from the registry
replies with the item-not-found status, echoes the caller's Parameter
Block unchanged, performs no service call, and leaves the state as it was
(no crash: the outcome is a reply). -/
theorem C5_invoke_unknown_session {C : Type}
    (ta : TrustedApplication C) (st : ManagerState C)
    (session_id cmd_id : Nat) (params : Parameters)
    (h : lookupSession st.sessions session_id = none) :
    handle_invoke_command ta st session_id cmd_id params =
      { state := st,
        outcome := Outcome.reply
          (TeeResponse.invokeCommand params itemNotFoundCode),
        calls := [] } := by
  simp [handle_invoke_command, h]

theorem C5_witness :
    lookupSession (ManagerState.fresh (C := Unit)).sessions 9 = none ∧
    handle_invoke_command taOk ManagerState.fresh 9 7 Parameters.default =
      { state := ManagerState.fresh,
        outcome := Outcome.reply
          (TeeResponse.invokeCommand Parameters.default itemNotFoundCode),
        calls := [] } :=
  ⟨rfl, C5_invoke_unknown_session taOk ManagerState.fresh 9 7
    Parameters.default rfl⟩

/-- C6: decode-after-encode is the identity on every message variant of
every protocol enum (`TARequest`'s `Register`, every `CARequest` and
`CAResponse` variant, and the dispatcher's `TeeRequest`/`TeeResponse`
variants), for all well-formed field values. -/
theorem C6_encode_decode_roundtrip :
    (∀ m : TARequest, m.wf →
      decTARequest (encTARequest m) = some (m, [])) ∧
    (∀ m : CARequest, m.wf →
      decCARequest (encCARequest m) = some (m, [])) ∧
    (∀ m : CAResponse, m.wf →
      decCAResponse (encCAResponse m) = some (m, [])) ∧
    (∀ m : TeeRequest, m.wf →
      decTeeRequest (encTeeRequest m) = some (m, [])) ∧
    (∀ m : TeeResponse, m.wf →
      decTeeResponse (encTeeResponse m) = some (m, [])) := by
  refine ⟨fun m h => ?_, fun m h => ?_, fun m h => ?_, fun m h => ?_,
    fun m h => ?_⟩
  · simpa using decTARequest_encTARequest m [] h
  · simpa using decCARequest_encCARequest m [] h
  · simpa using decCAResponse_encCAResponse m [] h
  · simpa using decTeeRequest_encTeeRequest m [] h
  · simpa using decTeeResponse_encTeeResponse m [] h

theorem C6_witness :
    (TeeRequest.openSession [97] 3 Parameters.default).wf ∧
    decTeeRequest (encTeeRequest
      (TeeRequest.openSession [97] 3 Parameters.default)) =
      some (TeeRequest.openSession [97] 3 Parameters.default, []) :=
  ⟨by decide, C6_encode_decode_roundtrip.2.2.2.1 _ (by decide)⟩

/-- C7: the counter of a fresh manager is 1; every `OpenSession` advances
it by exactly 1 (as a wrapping `u32`); the first `OpenSession` of a fresh
manager is assigned session id 1; and as long as the 32-bit counter does
not wrap, `n` consecutive `OpenSession` requests are assigned the ids
`1, 2, …, n` — strictly increasing, none reused. -/
theorem C7_session_id_allocation {C : Type}
    (ta : TrustedApplication C) (params : Parameters) :
    (ManagerState.fresh (C := C)).session_id = 1 ∧
    (∀ st : ManagerState C,
      (handle_open_session ta st params).state.session_id =
        (st.session_id + 1) % 2 ^ 32) ∧
    assignedId (handle_open_session ta (ManagerState.fresh (C := C))
      params).outcome = some 1 ∧
    (∀ n : Nat, n < 2 ^ 32 →
      openIds ta ManagerState.fresh params n = List.range' 1 n ∧
      (openIds ta ManagerState.fresh params n).Pairwise (· < ·)) := by
  refine ⟨rfl, fun st => handle_open_session_counter ta st params,
    handle_open_session_assigned ta _ params, fun n hn => ?_⟩
  have h := openIds_range ta params n ManagerState.fresh (by
    simp only [ManagerState.fresh]
    omega)
  exact ⟨h, by rw [h]; exact List.pairwise_lt_range' 1 n⟩

theorem C7_witness :
    (3 : Nat) < 2 ^ 32 ∧
    openIds taOk ManagerState.fresh Parameters.default 3 = [1, 2, 3] := by
  refine ⟨by decide, ?_⟩
  have h := ((C7_session_id_allocation taOk Parameters.default).2.2.2 3
    (by decide)).1
  simpa [List.range'] using h

/-- C8: `From<u32> for ParamType` maps every numeric value outside the
defined discriminants `0,1,2,3,5,6,7` to `ParamType::None` instead of
failing. -/
theorem C8_unknown_param_tag (n : Nat) (hn : n < 2 ^ 32)
    (h0 : n ≠ 0) (h1 : n ≠ 1) (h2 : n ≠ 2) (h3 : n ≠ 3)
    (h5 : n ≠ 5) (h6 : n ≠ 6) (h7 : n ≠ 7) :
    ParamType.fromU32 n = ParamType.none := by
  unfold ParamType.fromU32
  split <;> simp_all

theorem C8_witness :
    (4 : Nat) < 2 ^ 32 ∧ ParamType.fromU32 4 = ParamType.none :=
  ⟨by decide, C8_unknown_param_tag 4 (by decide) (by decide) (by decide)
    (by decide) (by decide) (by decide) (by decide) (by decide)⟩

/-- C9: the sender frames a payload as its length in 4 native-endian bytes
followed by the payload; a receiver doing the two-phase read (4 length
bytes, then exactly that many payload bytes) recovers exactly the original
payload, whatever bytes follow on the stream.  The hypothesis reflects the
`as u32` cast of the length. -/
theorem C9_length_prefixed_framing (payload rest : List Nat)
    (h : payload.length < 2 ^ 32) :
    frameMessage payload = leBytes 4 payload.length ++ payload ∧
    readFramed (frameMessage payload ++ rest) = some (payload, rest) := by
  refine ⟨rfl, ?_⟩
  have h4 : payload.length < 256 ^ 4 := by norm_num at h ⊢; omega
  rw [frameMessage, List.append_assoc]
  simp [readFramed, readLE_leBytes_of_lt 4 payload.length _ h4,
    List.take_append, List.drop_append]

theorem C9_witness :
    ([1, 2, 3] : List Nat).length < 2 ^ 32 ∧
    readFramed (frameMessage [1, 2, 3] ++ [9]) = some ([1, 2, 3], [9]) :=
  ⟨by decide, (C9_length_prefixed_framing [1, 2, 3] [9] (by decide)).2⟩

/-- C10: a decoded `RequestCancellation` hits the `todo!()` arm: the
dispatcher panics (no response, no state change, no service call), so a
cancellation message terminates the gateway. -/
theorem C10_request_cancellation_panics {C : Type}
    (ta : TrustedApplication C) (st : ManagerState C)
    (session_id : Nat) :
    handleRequest ta st (TeeRequest.requestCancellation session_id) =
      { state := st, outcome := Outcome.panicked, calls := [] } :=
  rfl

end Utee
